import Mathlib

/-!
Shallow embedding of the escrow program in `src/programs/escrow/src/lib.rs`
(an Anchor/Solana program).

Modelling conventions:
* `Pubkey` is modelled as `Nat` (only equality of keys matters to the program).
* `u64` quantities are `Nat` with the bound `u64Max` enforced exactly where the
  SPL token program's checked arithmetic enforces it.
* `i64` timestamps are `Int` with explicit range checks where the source uses
  `checked_add`.
* Anchor validates the accounts of an instruction (raw `constraint = ...`
  clauses and `seeds`/`bump` PDA re-derivation) before the instruction body
  runs; a failing `seeds`/`bump` check aborts with Anchor's own
  `ConstraintSeeds` error, not with any variant of `EscrowError`.  The PDA
  re-derivation is abstracted into one boolean per PDA account: whether the
  supplied account sits at the address re-derived from the stated seeds and
  bump.  (The intra-account order between the raw constraint and the seeds
  check is irrelevant to every theorem below: each theorem controls both.)
* A CPI to the SPL token program (`token::transfer`) moves `amt` between two
  token accounts; it fails (aborting the whole transaction) when the source
  balance is insufficient or the destination balance would overflow `u64`.
* Solana transactions are atomic: a failed instruction leaves every account
  unchanged.  Accordingly each operation returns `Except TxError σ`, where a
  `.error` outcome carries no new state at all, and the pre-call accounts
  stand unmodified.
-/

/-- Maximal value of a `u64` balance. -/
def u64Max : Nat := 2 ^ 64 - 1

/-- Minimal value of an `i64` timestamp. -/
def i64Min : Int := -(2 ^ 63)

/-- Maximal value of an `i64` timestamp. -/
def i64Max : Int := 2 ^ 63 - 1

/-- An SPL token account: its owner (authority) and its `u64` balance.
The mint is left implicit: all accounts of one escrow share one mint. -/
structure TokenAccount where
  owner : Nat
  amount : Nat
deriving DecidableEq, Repr

/-- Status enum `EscrowStatus` from the source, same constructor names. -/
inductive EscrowStatus where
  | Initialized
  | Withdrawn
  | Refunded
  | Cancelled
deriving DecidableEq, Repr

/-- The `Escrow` state account from the source (field `timeout` is the
absolute deadline, as in the source). -/
structure Escrow where
  initializer : Nat
  recipient : Nat
  arbiter : Nat
  amount : Nat
  timeout : Int
  status : EscrowStatus
  vault_bump : Nat
  escrow_bump : Nat
deriving DecidableEq, Repr

/-- Error enum `EscrowError` from the source, same variant names. -/
inductive EscrowError where
  | InvalidAmount
  | InvalidRecipient
  | InvalidInitializer
  | InvalidArbiter
  | TimeoutExpired
  | RefundNotAllowed
  | CancelNotAllowed
  | InvalidState
  | Overflow
  | InvalidBump
deriving DecidableEq, Repr

/-- Every way a transaction of this program can fail: a custom program error,
one of Anchor's own account-validation errors, or a failed SPL-token CPI. -/
inductive TxError where
  | program (e : EscrowError)
  | constraintSeeds
  | constraintRaw
  | tokenFailure
deriving DecidableEq, Repr

deriving instance DecidableEq for Except

/-- Transfer CPI `token::transfer`: checked subtraction on the source balance and
checked addition on the destination balance, both on `u64`. -/
def splTransfer (src dst : TokenAccount) (amt : Nat) :
    Option (TokenAccount × TokenAccount) :=
  if amt ≤ src.amount ∧ dst.amount + amt ≤ u64Max then
    some ({ src with amount := src.amount - amt },
          { dst with amount := dst.amount + amt })
  else
    none

/-- The `initialize` instruction (source lines 26-70 plus the `Initialize`
accounts struct); renamed because `initialize` is a reserved word here.
Anchor's account validation (the two deposit-account constraints; the
`escrow_state` and `vault` PDAs are freshly `init`ed at their derived
addresses, so no seeds mismatch can arise for them) runs first, then the
body: amount check, recipient check, `checked_add` of the deadline, and the
deposit transfer into the fresh vault (created with balance 0 and
authority = its own key `vaultKey`).  Returns the new record, the updated
deposit account, and the new vault account. -/
def initializeEscrow (amount : Nat) (timeout : Int) (now : Int)
    (initializerKey recipientKey arbiterKey : Nat)
    (deposit : TokenAccount) (vaultKey vaultBump escrowBump : Nat) :
    Except TxError (Escrow × TokenAccount × TokenAccount) :=
  -- Anchor: `constraint = initializer_deposit_token_account.amount > 0`
  if deposit.amount > 0 then
    -- Anchor: `constraint = initializer_deposit_token_account.owner == initializer.key()`
    if deposit.owner = initializerKey then
      -- body: `require!(amount > 0, EscrowError::InvalidAmount)`
      if amount > 0 then
        -- body: `require!(initializer.key() != recipient.key(), ...)`
        if initializerKey ≠ recipientKey then
          -- body: `Clock::get()?.unix_timestamp.checked_add(timeout).ok_or(EscrowError::Overflow)?`
          if i64Min ≤ now + timeout ∧ now + timeout ≤ i64Max then
            match splTransfer deposit ⟨vaultKey, 0⟩ amount with
            | some (deposit', vault') =>
                .ok (⟨initializerKey, recipientKey, arbiterKey, amount,
                      now + timeout, .Initialized, vaultBump, escrowBump⟩,
                     deposit', vault')
            | none => .error .tokenFailure
          else .error (.program .Overflow)
        else .error (.program .InvalidRecipient)
      else .error (.program .InvalidAmount)
    else .error .constraintRaw
  else .error .constraintRaw

/-- The `withdraw` instruction (source lines 73-115 plus the `Withdraw`
accounts struct).  Account validation first: the
`escrow_state.recipient == recipient.key()` constraint
(`EscrowError::InvalidRecipient`) and the PDA re-derivations of
`escrow_state` and `vault` (`escrowSeedsOk` / `vaultSeedsOk`); then the body:
status check, deadline check, vault-to-destination transfer of
`escrow_state.amount`, and `status := Withdrawn`.  `dest` is the
caller-supplied `recipient_deposit_token_account`. -/
def withdraw (e : Escrow) (recipientKey : Nat) (now : Int)
    (vault dest : TokenAccount) (escrowSeedsOk vaultSeedsOk : Bool) :
    Except TxError (Escrow × TokenAccount × TokenAccount) :=
  if e.recipient = recipientKey then
    if escrowSeedsOk then
      if vaultSeedsOk then
        if e.status = .Initialized then
          if now < e.timeout then
            match splTransfer vault dest e.amount with
            | some (vault', dest') =>
                .ok ({ e with status := .Withdrawn }, vault', dest')
            | none => .error .tokenFailure
          else .error (.program .TimeoutExpired)
        else .error (.program .InvalidState)
      else .error .constraintSeeds
    else .error .constraintSeeds
  else .error (.program .InvalidRecipient)

/-- The `refund` instruction (source lines 118-160 plus the `Refund` accounts
struct).  Account validation first: the
`escrow_state.initializer == initializer.key()` constraint
(`EscrowError::InvalidInitializer`) and both PDA re-derivations; then the
body: status check, `now >= timeout` check, vault-to-destination transfer,
and `status := Refunded`.  `dest` is the caller-supplied
`initializer_refund_token_account`. -/
def refund (e : Escrow) (initializerKey : Nat) (now : Int)
    (vault dest : TokenAccount) (escrowSeedsOk vaultSeedsOk : Bool) :
    Except TxError (Escrow × TokenAccount × TokenAccount) :=
  if e.initializer = initializerKey then
    if escrowSeedsOk then
      if vaultSeedsOk then
        if e.status = .Initialized then
          if e.timeout ≤ now then
            match splTransfer vault dest e.amount with
            | some (vault', dest') =>
                .ok ({ e with status := .Refunded }, vault', dest')
            | none => .error .tokenFailure
          else .error (.program .RefundNotAllowed)
        else .error (.program .InvalidState)
      else .error .constraintSeeds
    else .error .constraintSeeds
  else .error (.program .InvalidInitializer)

/-- The `cancel` instruction (source lines 163-204 plus the `Cancel` accounts
struct).  Identical account validation to `refund`; the body requires
`now < timeout` instead (`EscrowError::CancelNotAllowed`) and ends in
`status := Cancelled`. -/
def cancel (e : Escrow) (initializerKey : Nat) (now : Int)
    (vault dest : TokenAccount) (escrowSeedsOk vaultSeedsOk : Bool) :
    Except TxError (Escrow × TokenAccount × TokenAccount) :=
  if e.initializer = initializerKey then
    if escrowSeedsOk then
      if vaultSeedsOk then
        if e.status = .Initialized then
          if now < e.timeout then
            match splTransfer vault dest e.amount with
            | some (vault', dest') =>
                .ok ({ e with status := .Cancelled }, vault', dest')
            | none => .error .tokenFailure
          else .error (.program .CancelNotAllowed)
        else .error (.program .InvalidState)
      else .error .constraintSeeds
    else .error .constraintSeeds
  else .error (.program .InvalidInitializer)

/-- The `resolve_by_arbiter` instruction (source lines 207-255 plus the
`ResolveByArbiter` accounts struct).  Account validation first: the
`escrow_state.arbiter == arbiter.key()` constraint
(`EscrowError::InvalidArbiter`) and both PDA re-derivations; then the body:
status check only — the instruction never reads the clock — then a transfer
of `escrow_state.amount` to `recipDest`
(the caller-supplied `recipient_deposit_token_account`) with
`status := Withdrawn` when `releaseToRecipient`, otherwise to `initDest`
(the caller-supplied `initializer_refund_token_account`) with
`status := Refunded`.  Returns the record, the vault, and both destination
accounts. -/
def resolve_by_arbiter (e : Escrow) (arbiterKey : Nat)
    (releaseToRecipient : Bool)
    (vault recipDest initDest : TokenAccount)
    (escrowSeedsOk vaultSeedsOk : Bool) :
    Except TxError (Escrow × TokenAccount × TokenAccount × TokenAccount) :=
  if e.arbiter = arbiterKey then
    if escrowSeedsOk then
      if vaultSeedsOk then
        if e.status = .Initialized then
          if releaseToRecipient then
            match splTransfer vault recipDest e.amount with
            | some (vault', recipDest') =>
                .ok ({ e with status := .Withdrawn }, vault', recipDest', initDest)
            | none => .error .tokenFailure
          else
            match splTransfer vault initDest e.amount with
            | some (vault', initDest') =>
                .ok ({ e with status := .Refunded }, vault', recipDest, initDest')
            | none => .error .tokenFailure
        else .error (.program .InvalidState)
      else .error .constraintSeeds
    else .error .constraintSeeds
  else .error (.program .InvalidArbiter)

/-!
Chain-level model: one escrow instance together with the canonical token
accounts of its two parties, evolving by successful instructions.  The host
(the Solana runtime plus a well-behaved client) supplies the canonical
accounts: the initializer's token account as deposit/refund destination and
the recipient's token account as withdrawal destination.  The record slot
starts empty and `initialize` requires it empty (a second `init` of the same
PDA fails at the runtime level).
-/

/-- The on-chain state of one escrow instance: the (optional) record, the
initializer's token account, the recipient's token account, and the vault
token account (balance 0 before the vault exists). -/
structure Chain where
  record : Option Escrow
  initializerTA : TokenAccount
  recipientTA : TokenAccount
  vaultTA : TokenAccount
deriving DecidableEq, Repr

/-- Sum of the three balances the conservation property talks about. -/
def totalBalance (s : Chain) : Nat :=
  s.initializerTA.amount + s.recipientTA.amount + s.vaultTA.amount

/-- One successful instruction on the chain state, with canonical account
wiring.  Callers, clock readings and seed flags are arbitrary; an
instruction that returns an error produces no step (the transaction aborts
and every account is unchanged). -/
inductive Step : Chain → Chain → Prop where
  | init (s : Chain) (amount : Nat) (timeout now : Int)
      (recipientKey arbiterKey vaultKey vb eb : Nat)
      (e : Escrow) (dep' vlt' : TokenAccount)
      (hnone : s.record = none)
      (h : initializeEscrow amount timeout now s.initializerTA.owner
            recipientKey arbiterKey s.initializerTA vaultKey vb eb
            = .ok (e, dep', vlt')) :
      Step s ⟨some e, dep', s.recipientTA, vlt'⟩
  | withdrawStep (s : Chain) (caller : Nat) (now : Int) (b1 b2 : Bool)
      (e e' : Escrow) (vlt' dst' : TokenAccount)
      (hsome : s.record = some e)
      (h : withdraw e caller now s.vaultTA s.recipientTA b1 b2
            = .ok (e', vlt', dst')) :
      Step s ⟨some e', s.initializerTA, dst', vlt'⟩
  | refundStep (s : Chain) (caller : Nat) (now : Int) (b1 b2 : Bool)
      (e e' : Escrow) (vlt' dst' : TokenAccount)
      (hsome : s.record = some e)
      (h : refund e caller now s.vaultTA s.initializerTA b1 b2
            = .ok (e', vlt', dst')) :
      Step s ⟨some e', dst', s.recipientTA, vlt'⟩
  | cancelStep (s : Chain) (caller : Nat) (now : Int) (b1 b2 : Bool)
      (e e' : Escrow) (vlt' dst' : TokenAccount)
      (hsome : s.record = some e)
      (h : cancel e caller now s.vaultTA s.initializerTA b1 b2
            = .ok (e', vlt', dst')) :
      Step s ⟨some e', dst', s.recipientTA, vlt'⟩
  | resolveStep (s : Chain) (caller : Nat) (flag : Bool) (b1 b2 : Bool)
      (e e' : Escrow) (vlt' rd' id' : TokenAccount)
      (hsome : s.record = some e)
      (h : resolve_by_arbiter e caller flag s.vaultTA s.recipientTA
            s.initializerTA b1 b2 = .ok (e', vlt', rd', id')) :
      Step s ⟨some e', id', rd', vlt'⟩

/-- Reachable chain states: start with no record and an empty vault slot,
then take successful instructions. -/
inductive Reachable : Chain → Prop where
  | base (ita rta vta : TokenAccount)
      (hv : vta.amount = 0)
      (hi : ita.amount ≤ u64Max) (hr : rta.amount ≤ u64Max) :
      Reachable ⟨none, ita, rta, vta⟩
  | step (s s' : Chain) (hs : Reachable s) (h : Step s s') : Reachable s'

/-!
Inversion lemmas: what a successful instruction implies about its inputs and
outputs.  Shared by several of the theorems below.
-/

theorem initializeEscrow_ok_inv {amount : Nat} {timeout now : Int}
    {ik rk ak : Nat} {deposit : TokenAccount} {vk vb eb : Nat}
    {e : Escrow} {dep' vlt' : TokenAccount}
    (h : initializeEscrow amount timeout now ik rk ak deposit vk vb eb
          = .ok (e, dep', vlt')) :
    deposit.amount > 0 ∧ deposit.owner = ik ∧ amount > 0 ∧ ik ≠ rk ∧
    i64Min ≤ now + timeout ∧ now + timeout ≤ i64Max ∧
    amount ≤ deposit.amount ∧ amount ≤ u64Max ∧
    e = ⟨ik, rk, ak, amount, now + timeout, .Initialized, vb, eb⟩ ∧
    dep' = { deposit with amount := deposit.amount - amount } ∧
    vlt' = ⟨vk, amount⟩ := by
  unfold initializeEscrow splTransfer at h
  split_ifs at h with h1 h2 h3 h4 h5 h6
  · simp only [Except.ok.injEq, Prod.mk.injEq] at h
    refine ⟨h1, h2, h3, h4, h5.1, h5.2, h6.1, ?_, ?_, ?_, ?_⟩
    · omega
    · exact h.1.symm
    · exact h.2.1.symm
    · rw [← h.2.2]
      simp

theorem withdraw_ok_inv {e : Escrow} {c : Nat} {now : Int}
    {vault dest : TokenAccount} {b1 b2 : Bool}
    {e' : Escrow} {v' d' : TokenAccount}
    (h : withdraw e c now vault dest b1 b2 = .ok (e', v', d')) :
    e.recipient = c ∧ b1 = true ∧ b2 = true ∧ e.status = .Initialized ∧
    now < e.timeout ∧ e.amount ≤ vault.amount ∧
    dest.amount + e.amount ≤ u64Max ∧
    e' = { e with status := .Withdrawn } ∧
    v' = { vault with amount := vault.amount - e.amount } ∧
    d' = { dest with amount := dest.amount + e.amount } := by
  unfold withdraw splTransfer at h
  split_ifs at h with h1 h2 h3 h4 h5 h6
  · simp only [Except.ok.injEq, Prod.mk.injEq] at h
    exact ⟨h1, h2, h3, h4, h5, h6.1, h6.2, h.1.symm, h.2.1.symm, h.2.2.symm⟩

theorem refund_ok_inv {e : Escrow} {c : Nat} {now : Int}
    {vault dest : TokenAccount} {b1 b2 : Bool}
    {e' : Escrow} {v' d' : TokenAccount}
    (h : refund e c now vault dest b1 b2 = .ok (e', v', d')) :
    e.initializer = c ∧ b1 = true ∧ b2 = true ∧ e.status = .Initialized ∧
    e.timeout ≤ now ∧ e.amount ≤ vault.amount ∧
    dest.amount + e.amount ≤ u64Max ∧
    e' = { e with status := .Refunded } ∧
    v' = { vault with amount := vault.amount - e.amount } ∧
    d' = { dest with amount := dest.amount + e.amount } := by
  unfold refund splTransfer at h
  split_ifs at h with h1 h2 h3 h4 h5 h6
  · simp only [Except.ok.injEq, Prod.mk.injEq] at h
    exact ⟨h1, h2, h3, h4, h5, h6.1, h6.2, h.1.symm, h.2.1.symm, h.2.2.symm⟩

theorem cancel_ok_inv {e : Escrow} {c : Nat} {now : Int}
    {vault dest : TokenAccount} {b1 b2 : Bool}
    {e' : Escrow} {v' d' : TokenAccount}
    (h : cancel e c now vault dest b1 b2 = .ok (e', v', d')) :
    e.initializer = c ∧ b1 = true ∧ b2 = true ∧ e.status = .Initialized ∧
    now < e.timeout ∧ e.amount ≤ vault.amount ∧
    dest.amount + e.amount ≤ u64Max ∧
    e' = { e with status := .Cancelled } ∧
    v' = { vault with amount := vault.amount - e.amount } ∧
    d' = { dest with amount := dest.amount + e.amount } := by
  unfold cancel splTransfer at h
  split_ifs at h with h1 h2 h3 h4 h5 h6
  · simp only [Except.ok.injEq, Prod.mk.injEq] at h
    exact ⟨h1, h2, h3, h4, h5, h6.1, h6.2, h.1.symm, h.2.1.symm, h.2.2.symm⟩

theorem resolve_by_arbiter_ok_inv {e : Escrow} {c : Nat} {flag : Bool}
    {vault rd idt : TokenAccount} {b1 b2 : Bool}
    {e' : Escrow} {v' rd' id' : TokenAccount}
    (h : resolve_by_arbiter e c flag vault rd idt b1 b2
          = .ok (e', v', rd', id')) :
    e.arbiter = c ∧ b1 = true ∧ b2 = true ∧ e.status = .Initialized ∧
    e.amount ≤ vault.amount ∧
    v' = { vault with amount := vault.amount - e.amount } ∧
    ((flag = true ∧ rd.amount + e.amount ≤ u64Max ∧
      e' = { e with status := .Withdrawn } ∧
      rd' = { rd with amount := rd.amount + e.amount } ∧ id' = idt) ∨
     (flag = false ∧ idt.amount + e.amount ≤ u64Max ∧
      e' = { e with status := .Refunded } ∧
      rd' = rd ∧ id' = { idt with amount := idt.amount + e.amount })) := by
  unfold resolve_by_arbiter splTransfer at h
  split_ifs at h with h1 h2 h3 h4 h5 h6 h7
  · simp only [Except.ok.injEq, Prod.mk.injEq] at h
    exact ⟨h1, h2, h3, h4, h6.1, h.2.1.symm,
      Or.inl ⟨h5, h6.2, h.1.symm, h.2.2.1.symm, h.2.2.2.symm⟩⟩
  · simp only [Except.ok.injEq, Prod.mk.injEq] at h
    exact ⟨h1, h2, h3, h4, h7.1, h.2.1.symm,
      Or.inr ⟨by simpa using h5, h7.2, h.1.symm, h.2.2.1.symm, h.2.2.2.symm⟩⟩

/-- The vault-balance invariant of one escrow instance: while the record is
`Initialized` the vault holds exactly `amount`; once the record is terminal
(and before any record exists) the vault holds exactly 0. -/
def vaultInvariant (s : Chain) : Prop :=
  (∀ e, s.record = some e →
    (e.status = .Initialized → s.vaultTA.amount = e.amount) ∧
    (e.status ≠ .Initialized → s.vaultTA.amount = 0)) ∧
  (s.record = none → s.vaultTA.amount = 0)

theorem vaultInvariant_of_reachable {s : Chain} (hs : Reachable s) :
    vaultInvariant s := by
  induction hs with
  | base ita rta vta hv hi hr =>
      refine ⟨?_, fun _ => hv⟩
      intro e he
      simp at he
  | step s s' hsR hstep ih =>
      cases hstep with
      | init amount timeout now rk ak vk vb eb e dep' vlt' hnone h =>
          obtain ⟨-, -, -, -, -, -, -, -, he, -, hvlt⟩ := initializeEscrow_ok_inv h
          refine ⟨?_, ?_⟩
          · intro e₂ he₂
            obtain rfl : e = e₂ := by simpa using he₂
            subst he; subst hvlt
            exact ⟨fun _ => rfl, fun hne => absurd rfl hne⟩
          · intro hn; simp at hn
      | withdrawStep caller now b1 b2 e e' vlt' dst' hsome h =>
          obtain ⟨-, -, -, hst, -, -, -, he', hvlt, -⟩ := withdraw_ok_inv h
          have hbal : s.vaultTA.amount = e.amount := (ih.1 e hsome).1 hst
          refine ⟨?_, ?_⟩
          · intro e₂ he₂
            obtain rfl : e' = e₂ := by simpa using he₂
            subst he'
            refine ⟨fun hc => ?_, fun _ => ?_⟩
            · simp at hc
            · subst hvlt; simp [hbal]
          · intro hn; simp at hn
      | refundStep caller now b1 b2 e e' vlt' dst' hsome h =>
          obtain ⟨-, -, -, hst, -, -, -, he', hvlt, -⟩ := refund_ok_inv h
          have hbal : s.vaultTA.amount = e.amount := (ih.1 e hsome).1 hst
          refine ⟨?_, ?_⟩
          · intro e₂ he₂
            obtain rfl : e' = e₂ := by simpa using he₂
            subst he'
            refine ⟨fun hc => ?_, fun _ => ?_⟩
            · simp at hc
            · subst hvlt; simp [hbal]
          · intro hn; simp at hn
      | cancelStep caller now b1 b2 e e' vlt' dst' hsome h =>
          obtain ⟨-, -, -, hst, -, -, -, he', hvlt, -⟩ := cancel_ok_inv h
          have hbal : s.vaultTA.amount = e.amount := (ih.1 e hsome).1 hst
          refine ⟨?_, ?_⟩
          · intro e₂ he₂
            obtain rfl : e' = e₂ := by simpa using he₂
            subst he'
            refine ⟨fun hc => ?_, fun _ => ?_⟩
            · simp at hc
            · subst hvlt; simp [hbal]
          · intro hn; simp at hn
      | resolveStep caller flag b1 b2 e e' vlt' rd' id' hsome h =>
          obtain ⟨-, -, -, hst, -, hvlt, hcases⟩ := resolve_by_arbiter_ok_inv h
          have hbal : s.vaultTA.amount = e.amount := (ih.1 e hsome).1 hst
          refine ⟨?_, ?_⟩
          · intro e₂ he₂
            obtain rfl : e' = e₂ := by simpa using he₂
            rcases hcases with ⟨-, -, he', -, -⟩ | ⟨-, -, he', -, -⟩ <;>
              subst he' <;>
              exact ⟨fun hc => by simp at hc, fun _ => by subst hvlt; simp [hbal]⟩
          · intro hn; simp at hn

/-!
Claim theorems.
-/

/-- C1: for every reachable escrow record whose status is not `Initialized`,
each of `withdraw`, `refund`, `cancel` and `resolve_by_arbiter` — invoked by
its designated party with a matching derivation — fails with `InvalidState`;
moreover no invocation whatsoever (any caller, any clock reading, any seed
flags) succeeds on such a record, so no chain step leaves a terminal status
(and, errors carrying no state, the record and all balances stand
unchanged). -/
theorem C1_terminal_states_frozen (e : Escrow) (he : e.status ≠ .Initialized) :
    (∀ (now : Int) (vault dest : TokenAccount),
      withdraw e e.recipient now vault dest true true
        = .error (.program .InvalidState)) ∧
    (∀ (now : Int) (vault dest : TokenAccount),
      refund e e.initializer now vault dest true true
        = .error (.program .InvalidState)) ∧
    (∀ (now : Int) (vault dest : TokenAccount),
      cancel e e.initializer now vault dest true true
        = .error (.program .InvalidState)) ∧
    (∀ (flag : Bool) (vault rd idt : TokenAccount),
      resolve_by_arbiter e e.arbiter flag vault rd idt true true
        = .error (.program .InvalidState)) ∧
    (∀ (c : Nat) (now : Int) (vault dest : TokenAccount) (b1 b2 : Bool) r,
      withdraw e c now vault dest b1 b2 ≠ .ok r) ∧
    (∀ (c : Nat) (now : Int) (vault dest : TokenAccount) (b1 b2 : Bool) r,
      refund e c now vault dest b1 b2 ≠ .ok r) ∧
    (∀ (c : Nat) (now : Int) (vault dest : TokenAccount) (b1 b2 : Bool) r,
      cancel e c now vault dest b1 b2 ≠ .ok r) ∧
    (∀ (c : Nat) (flag : Bool) (vault rd idt : TokenAccount) (b1 b2 : Bool) r,
      resolve_by_arbiter e c flag vault rd idt b1 b2 ≠ .ok r) ∧
    (∀ (s s' : Chain), s.record = some e → ¬ Step s s') := by
  refine ⟨?_, ?_, ?_, ?_, ?_, ?_, ?_, ?_, ?_⟩
  · intro now vault dest
    simp [withdraw, he]
  · intro now vault dest
    simp [refund, he]
  · intro now vault dest
    simp [cancel, he]
  · intro flag vault rd idt
    simp [resolve_by_arbiter, he]
  · intro c now vault dest b1 b2 r hr
    obtain ⟨e', v', d'⟩ := r
    exact he (withdraw_ok_inv hr).2.2.2.1
  · intro c now vault dest b1 b2 r hr
    obtain ⟨e', v', d'⟩ := r
    exact he (refund_ok_inv hr).2.2.2.1
  · intro c now vault dest b1 b2 r hr
    obtain ⟨e', v', d'⟩ := r
    exact he (cancel_ok_inv hr).2.2.2.1
  · intro c flag vault rd idt b1 b2 r hr
    obtain ⟨e', v', rd', id'⟩ := r
    exact he (resolve_by_arbiter_ok_inv hr).2.2.2.1
  · intro s s' hsome hstep
    cases hstep with
    | init amount timeout now rk ak vk vb eb e₂ dep' vlt' hnone h =>
        rw [hsome] at hnone; cases hnone
    | withdrawStep caller now b1 b2 e₂ e' vlt' dst' hsome₂ h =>
        rw [hsome] at hsome₂
        obtain rfl : e = e₂ := by simpa using hsome₂
        exact he (withdraw_ok_inv h).2.2.2.1
    | refundStep caller now b1 b2 e₂ e' vlt' dst' hsome₂ h =>
        rw [hsome] at hsome₂
        obtain rfl : e = e₂ := by simpa using hsome₂
        exact he (refund_ok_inv h).2.2.2.1
    | cancelStep caller now b1 b2 e₂ e' vlt' dst' hsome₂ h =>
        rw [hsome] at hsome₂
        obtain rfl : e = e₂ := by simpa using hsome₂
        exact he (cancel_ok_inv h).2.2.2.1
    | resolveStep caller flag b1 b2 e₂ e' vlt' rd' id' hsome₂ h =>
        rw [hsome] at hsome₂
        obtain rfl : e = e₂ := by simpa using hsome₂
        exact he (resolve_by_arbiter_ok_inv h).2.2.2.1

/-- Witness for C1 at a concrete terminal record. -/
theorem C1_terminal_states_frozen_witness :
    withdraw ⟨1, 2, 3, 50, 10, .Withdrawn, 255, 254⟩ 2 0 ⟨9, 0⟩ ⟨2, 0⟩ true true
      = .error (.program .InvalidState) := by
  have := C1_terminal_states_frozen ⟨1, 2, 3, 50, 10, .Withdrawn, 255, 254⟩
    (by decide)
  exact this.1 0 ⟨9, 0⟩ ⟨2, 0⟩

/-- C2: in every reachable chain state holding a record, the vault balance
equals the record's `amount` while the status is `Initialized`, and equals 0
once the status is terminal — in particular immediately after any successful
terminal transition (`Step`). -/
theorem C2_vault_balance (s : Chain) (hs : Reachable s) (e : Escrow)
    (he : s.record = some e) :
    ((e.status = .Initialized → s.vaultTA.amount = e.amount) ∧
     (e.status ≠ .Initialized → s.vaultTA.amount = 0)) ∧
    (∀ s', Step s s' → ∀ e', s'.record = some e' →
      e'.status ≠ .Initialized → s'.vaultTA.amount = 0) := by
  refine ⟨(vaultInvariant_of_reachable hs).1 e he, ?_⟩
  intro s' hstep e' he' hterm
  exact ((vaultInvariant_of_reachable (Reachable.step s s' hs hstep)).1 e' he').2
    hterm

/-- Witness for C2: a concrete chain reached by one `initializeEscrow` step
holds 50 in the vault, matching the record's amount. -/
theorem C2_vault_balance_witness :
    (⟨some ⟨1, 2, 3, 50, 10, .Initialized, 255, 254⟩,
      ⟨1, 0⟩, ⟨2, 0⟩, ⟨9, 50⟩⟩ : Chain).vaultTA.amount = 50 := by
  have hstep : Step ⟨none, ⟨1, 50⟩, ⟨2, 0⟩, ⟨9, 0⟩⟩
      ⟨some ⟨1, 2, 3, 50, 10, .Initialized, 255, 254⟩, ⟨1, 0⟩, ⟨2, 0⟩, ⟨9, 50⟩⟩ :=
    Step.init ⟨none, ⟨1, 50⟩, ⟨2, 0⟩, ⟨9, 0⟩⟩ 50 10 0 2 3 9 255 254
      ⟨1, 2, 3, 50, 10, .Initialized, 255, 254⟩ ⟨1, 0⟩ ⟨9, 50⟩ rfl (by decide)
  have hreach : Reachable
      ⟨some ⟨1, 2, 3, 50, 10, .Initialized, 255, 254⟩, ⟨1, 0⟩, ⟨2, 0⟩, ⟨9, 50⟩⟩ :=
    Reachable.step _ _
      (Reachable.base ⟨1, 50⟩ ⟨2, 0⟩ ⟨9, 0⟩ rfl (by decide) (by decide)) hstep
  exact (C2_vault_balance _ hreach ⟨1, 2, 3, 50, 10, .Initialized, 255, 254⟩
    rfl).1.1 rfl

/-- C3: every chain step — hence every successful operation, failed
operations changing nothing — preserves the sum of the initializer's,
recipient's, and vault balances. -/
theorem C3_conservation (s s' : Chain) (hs : Reachable s) (h : Step s s') :
    totalBalance s' = totalBalance s := by
  have hinv := vaultInvariant_of_reachable hs
  cases h with
  | init amount timeout now rk ak vk vb eb e dep' vlt' hnone h =>
      obtain ⟨-, -, -, -, -, -, hle, -, -, hdep, hvlt⟩ :=
        initializeEscrow_ok_inv h
      have hv0 : s.vaultTA.amount = 0 := hinv.2 hnone
      subst hdep; subst hvlt
      simp only [totalBalance]
      omega
  | withdrawStep caller now b1 b2 e e' vlt' dst' hsome h =>
      obtain ⟨-, -, -, -, -, hle, -, -, hvlt, hdst⟩ := withdraw_ok_inv h
      subst hvlt; subst hdst
      simp only [totalBalance]
      omega
  | refundStep caller now b1 b2 e e' vlt' dst' hsome h =>
      obtain ⟨-, -, -, -, -, hle, -, -, hvlt, hdst⟩ := refund_ok_inv h
      subst hvlt; subst hdst
      simp only [totalBalance]
      omega
  | cancelStep caller now b1 b2 e e' vlt' dst' hsome h =>
      obtain ⟨-, -, -, -, -, hle, -, -, hvlt, hdst⟩ := cancel_ok_inv h
      subst hvlt; subst hdst
      simp only [totalBalance]
      omega
  | resolveStep caller flag b1 b2 e e' vlt' rd' id' hsome h =>
      obtain ⟨-, -, -, -, hle, hvlt, hcases⟩ := resolve_by_arbiter_ok_inv h
      rcases hcases with ⟨-, -, -, hrd, hid⟩ | ⟨-, -, -, hrd, hid⟩ <;>
        subst hvlt <;> subst hrd <;> subst hid <;>
        simp only [totalBalance] <;> omega

/-- Witness for C3 at the concrete `initializeEscrow` step: 50 + 0 + 0
before, 0 + 0 + 50 after. -/
theorem C3_conservation_witness :
    totalBalance ⟨some ⟨1, 2, 3, 50, 10, .Initialized, 255, 254⟩,
      ⟨1, 0⟩, ⟨2, 0⟩, ⟨9, 50⟩⟩
      = totalBalance ⟨none, ⟨1, 50⟩, ⟨2, 0⟩, ⟨9, 0⟩⟩ :=
  C3_conservation _ _
    (Reachable.base ⟨1, 50⟩ ⟨2, 0⟩ ⟨9, 0⟩ rfl (by decide) (by decide))
    (Step.init ⟨none, ⟨1, 50⟩, ⟨2, 0⟩, ⟨9, 0⟩⟩ 50 10 0 2 3 9 255 254
      ⟨1, 2, 3, 50, 10, .Initialized, 255, 254⟩ ⟨1, 0⟩ ⟨9, 50⟩ rfl (by decide))

/-- C4: with the caller authenticated as the designated party, the record
`Initialized`, matching derivations, and the vault funded as the invariant
guarantees, `withdraw` succeeds exactly when `now < timeout` (else
`TimeoutExpired`), `refund` succeeds exactly when `now ≥ timeout` (else
`RefundNotAllowed`), `cancel` succeeds exactly when `now < timeout` (else
`CancelNotAllowed`), and `resolve_by_arbiter` always succeeds — it never
reads the clock. -/
theorem C4_timing_gates (e : Escrow) (now : Int) (vault destR destI : TokenAccount)
    (hst : e.status = .Initialized)
    (hv : e.amount ≤ vault.amount)
    (hbR : destR.amount + e.amount ≤ u64Max)
    (hbI : destI.amount + e.amount ≤ u64Max) :
    ((∃ r, withdraw e e.recipient now vault destR true true = .ok r)
        ↔ now < e.timeout) ∧
    (¬ now < e.timeout →
      withdraw e e.recipient now vault destR true true
        = .error (.program .TimeoutExpired)) ∧
    ((∃ r, refund e e.initializer now vault destI true true = .ok r)
        ↔ e.timeout ≤ now) ∧
    (now < e.timeout →
      refund e e.initializer now vault destI true true
        = .error (.program .RefundNotAllowed)) ∧
    ((∃ r, cancel e e.initializer now vault destI true true = .ok r)
        ↔ now < e.timeout) ∧
    (¬ now < e.timeout →
      cancel e e.initializer now vault destI true true
        = .error (.program .CancelNotAllowed)) ∧
    (∀ flag, ∃ r,
      resolve_by_arbiter e e.arbiter flag vault destR destI true true = .ok r) := by
  refine ⟨⟨?_, ?_⟩, ?_, ⟨?_, ?_⟩, ?_, ⟨?_, ?_⟩, ?_, ?_⟩
  · rintro ⟨⟨e', v', d'⟩, hr⟩
    exact (withdraw_ok_inv hr).2.2.2.2.1
  · intro hnow
    have hok : withdraw e e.recipient now vault destR true true
        = .ok ({ e with status := .Withdrawn },
               { vault with amount := vault.amount - e.amount },
               { destR with amount := destR.amount + e.amount }) := by
      simp [withdraw, splTransfer, hst, hnow, hv, hbR]
    exact ⟨_, hok⟩
  · intro hnow
    simp [withdraw, hst, hnow]
  · rintro ⟨⟨e', v', d'⟩, hr⟩
    exact (refund_ok_inv hr).2.2.2.2.1
  · intro hnow
    have hok : refund e e.initializer now vault destI true true
        = .ok ({ e with status := .Refunded },
               { vault with amount := vault.amount - e.amount },
               { destI with amount := destI.amount + e.amount }) := by
      simp [refund, splTransfer, hst, hnow, hv, hbI]
    exact ⟨_, hok⟩
  · intro hnow
    have hlt : ¬ e.timeout ≤ now := not_le.mpr hnow
    simp [refund, hst, hlt]
  · rintro ⟨⟨e', v', d'⟩, hr⟩
    exact (cancel_ok_inv hr).2.2.2.2.1
  · intro hnow
    have hok : cancel e e.initializer now vault destI true true
        = .ok ({ e with status := .Cancelled },
               { vault with amount := vault.amount - e.amount },
               { destI with amount := destI.amount + e.amount }) := by
      simp [cancel, splTransfer, hst, hnow, hv, hbI]
    exact ⟨_, hok⟩
  · intro hnow
    simp [cancel, hst, hnow]
  · intro flag
    cases flag
    · have hok : resolve_by_arbiter e e.arbiter false vault destR destI true true
          = .ok ({ e with status := .Refunded },
                 { vault with amount := vault.amount - e.amount },
                 destR, { destI with amount := destI.amount + e.amount }) := by
        simp [resolve_by_arbiter, splTransfer, hst, hv, hbI]
      exact ⟨_, hok⟩
    · have hok : resolve_by_arbiter e e.arbiter true vault destR destI true true
          = .ok ({ e with status := .Withdrawn },
                 { vault with amount := vault.amount - e.amount },
                 { destR with amount := destR.amount + e.amount }, destI) := by
        simp [resolve_by_arbiter, splTransfer, hst, hv, hbR]
      exact ⟨_, hok⟩

/-- Witness for C4 at a concrete open escrow before its deadline. -/
theorem C4_timing_gates_witness :
    ∃ r, withdraw ⟨1, 2, 3, 50, 10, .Initialized, 255, 254⟩ 2 0 ⟨9, 50⟩ ⟨2, 0⟩
      true true = .ok r := by
  have := C4_timing_gates ⟨1, 2, 3, 50, 10, .Initialized, 255, 254⟩ 0
    ⟨9, 50⟩ ⟨2, 0⟩ ⟨1, 0⟩ (by decide) (by decide) (by decide) (by decide)
  exact this.1.mpr (by decide)

/-- C5: with matching derivations, a caller that is not the record's
designated party is rejected with the corresponding authorization error —
`InvalidRecipient` for `withdraw`, `InvalidInitializer` for `refund` and
`cancel`, `InvalidArbiter` for `resolve_by_arbiter` — for every record
status and every clock reading (these Anchor account constraints run before
the status and deadline checks). -/
theorem C5_authorization (e : Escrow) (c : Nat) (now : Int)
    (vault dest rd idt : TokenAccount) (flag : Bool) :
    (c ≠ e.recipient →
      withdraw e c now vault dest true true
        = .error (.program .InvalidRecipient)) ∧
    (c ≠ e.initializer →
      refund e c now vault dest true true
        = .error (.program .InvalidInitializer)) ∧
    (c ≠ e.initializer →
      cancel e c now vault dest true true
        = .error (.program .InvalidInitializer)) ∧
    (c ≠ e.arbiter →
      resolve_by_arbiter e c flag vault rd idt true true
        = .error (.program .InvalidArbiter)) := by
  refine ⟨?_, ?_, ?_, ?_⟩
  · intro hc
    have : e.recipient ≠ c := Ne.symm hc
    simp [withdraw, this]
  · intro hc
    have : e.initializer ≠ c := Ne.symm hc
    simp [refund, this]
  · intro hc
    have : e.initializer ≠ c := Ne.symm hc
    simp [cancel, this]
  · intro hc
    have : e.arbiter ≠ c := Ne.symm hc
    simp [resolve_by_arbiter, this]

/-- Witness for C5: caller 7 is none of the parties (1, 2, 3) of a concrete
terminal record, and each operation rejects it with its own auth error. -/
theorem C5_authorization_witness :
    withdraw ⟨1, 2, 3, 50, 10, .Withdrawn, 255, 254⟩ 7 99 ⟨9, 0⟩ ⟨2, 0⟩ true true
      = .error (.program .InvalidRecipient) ∧
    refund ⟨1, 2, 3, 50, 10, .Withdrawn, 255, 254⟩ 7 99 ⟨9, 0⟩ ⟨1, 0⟩ true true
      = .error (.program .InvalidInitializer) ∧
    cancel ⟨1, 2, 3, 50, 10, .Withdrawn, 255, 254⟩ 7 99 ⟨9, 0⟩ ⟨1, 0⟩ true true
      = .error (.program .InvalidInitializer) ∧
    resolve_by_arbiter ⟨1, 2, 3, 50, 10, .Withdrawn, 255, 254⟩ 7 true
      ⟨9, 0⟩ ⟨2, 0⟩ ⟨1, 0⟩ true true = .error (.program .InvalidArbiter) := by
  have h1 := C5_authorization ⟨1, 2, 3, 50, 10, .Withdrawn, 255, 254⟩ 7 99
    ⟨9, 0⟩ ⟨2, 0⟩ ⟨2, 0⟩ ⟨1, 0⟩ true
  have h2 := C5_authorization ⟨1, 2, 3, 50, 10, .Withdrawn, 255, 254⟩ 7 99
    ⟨9, 0⟩ ⟨1, 0⟩ ⟨2, 0⟩ ⟨1, 0⟩ true
  exact ⟨h1.1 (by decide), h2.2.1 (by decide), h2.2.2.1 (by decide),
    h1.2.2.2 (by decide)⟩

/-- Success lemma for `initializeEscrow`, shared by several claims. -/
theorem initializeEscrow_ok_of (amount : Nat) (timeout now : Int)
    (ik rk ak vk vb eb : Nat) (deposit : TokenAccount)
    (hamt : 0 < amount) (hsz : amount ≤ u64Max)
    (hne : ik ≠ rk) (howner : deposit.owner = ik)
    (hbal : amount ≤ deposit.amount)
    (hlo : i64Min ≤ now + timeout) (hhi : now + timeout ≤ i64Max) :
    initializeEscrow amount timeout now ik rk ak deposit vk vb eb
      = .ok (⟨ik, rk, ak, amount, now + timeout, .Initialized, vb, eb⟩,
             { deposit with amount := deposit.amount - amount },
             ⟨vk, amount⟩) := by
  have hd : 0 < deposit.amount := lt_of_lt_of_le hamt hbal
  simp [initializeEscrow, splTransfer, hd, howner, hamt, hne, hlo, hhi, hbal,
    hsz]

/-- C6: with a positive `amount`, distinct initializer and recipient, a
sufficiently funded deposit account owned by the initializer, and
`now + timeoutDuration` representable as `i64`, `initializeEscrow` succeeds,
producing a record with the given parties and amount, `status =
Initialized` and `deadline = now + timeoutDuration`, and moving exactly
`amount` from the initializer's deposit account into the fresh vault. -/
theorem C6_initialize_success (amount : Nat) (timeout now : Int)
    (ik rk ak vk vb eb : Nat) (deposit : TokenAccount)
    (hamt : 0 < amount) (hsz : amount ≤ u64Max)
    (hne : ik ≠ rk) (howner : deposit.owner = ik)
    (hbal : amount ≤ deposit.amount)
    (hlo : i64Min ≤ now + timeout) (hhi : now + timeout ≤ i64Max) :
    initializeEscrow amount timeout now ik rk ak deposit vk vb eb
      = .ok (⟨ik, rk, ak, amount, now + timeout, .Initialized, vb, eb⟩,
             { deposit with amount := deposit.amount - amount },
             ⟨vk, amount⟩) :=
  initializeEscrow_ok_of amount timeout now ik rk ak vk vb eb deposit
    hamt hsz hne howner hbal hlo hhi

/-- Witness for C6: a concrete successful initialization. -/
theorem C6_initialize_success_witness :
    initializeEscrow 50 10 0 1 2 3 ⟨1, 50⟩ 9 255 254
      = .ok (⟨1, 2, 3, 50, 10, .Initialized, 255, 254⟩, ⟨1, 0⟩, ⟨9, 50⟩) := by
  have := C6_initialize_success 50 10 0 1 2 3 9 255 254 ⟨1, 50⟩
    (by decide) (by decide) (by decide) (by decide) (by decide)
    (by decide) (by decide)
  simpa using this

/-- C7: the operation `initializeEscrow` fails with `InvalidAmount` when the requested
amount is 0, with `InvalidRecipient` when the initializer equals the
recipient (the amount check running first), and with `Overflow` when
`now + timeoutDuration` leaves the `i64` range; a failure carries no new
state, so no record is created and no funds move. -/
theorem C7_initialize_failures (amount : Nat) (timeout now : Int)
    (ik rk ak vk vb eb : Nat) (deposit : TokenAccount)
    (hd : 0 < deposit.amount) (howner : deposit.owner = ik) :
    (amount = 0 →
      initializeEscrow amount timeout now ik rk ak deposit vk vb eb
        = .error (.program .InvalidAmount)) ∧
    (0 < amount → ik = rk →
      initializeEscrow amount timeout now ik rk ak deposit vk vb eb
        = .error (.program .InvalidRecipient)) ∧
    (0 < amount → ik ≠ rk →
      ¬ (i64Min ≤ now + timeout ∧ now + timeout ≤ i64Max) →
      initializeEscrow amount timeout now ik rk ak deposit vk vb eb
        = .error (.program .Overflow)) := by
  refine ⟨?_, ?_, ?_⟩
  · intro h0
    subst h0
    simp [initializeEscrow, hd, howner]
  · intro hamt heq
    subst heq
    simp [initializeEscrow, hd, howner, hamt]
  · intro hamt hne hover
    simp [initializeEscrow, hd, howner, hamt, hne, hover]

/-- Witness for C7: amount 0, self-recipient, and an overflowing deadline
each produce the right error at concrete inputs. -/
theorem C7_initialize_failures_witness :
    initializeEscrow 0 10 0 1 2 3 ⟨1, 50⟩ 9 255 254
      = .error (.program .InvalidAmount) ∧
    initializeEscrow 50 10 0 1 1 3 ⟨1, 50⟩ 9 255 254
      = .error (.program .InvalidRecipient) ∧
    initializeEscrow 50 1 i64Max 1 2 3 ⟨1, 50⟩ 9 255 254
      = .error (.program .Overflow) := by
  have h1 := C7_initialize_failures 0 10 0 1 2 3 9 255 254 ⟨1, 50⟩
    (by decide) (by decide)
  have h2 := C7_initialize_failures 50 10 0 1 1 3 9 255 254 ⟨1, 50⟩
    (by decide) (by decide)
  have h3 := C7_initialize_failures 50 1 i64Max 1 2 3 9 255 254 ⟨1, 50⟩
    (by decide) (by decide)
  exact ⟨h1.1 rfl, h2.2.1 (by decide) rfl,
    h3.2.2 (by decide) (by decide) (by decide)⟩

/-- C8: a `resolve_by_arbiter` call by the record's arbiter on an
`Initialized` record — the instruction takes no clock reading, so at any
time — moves the full vault balance (the record's `amount`) to the supplied
recipient destination with `status := Withdrawn` when `releaseToRecipient`,
and to the supplied initializer destination with `status := Refunded`
otherwise, leaving the vault at exactly 0. -/
theorem C8_resolve_by_arbiter (e : Escrow) (vault rd idt : TokenAccount)
    (hst : e.status = .Initialized)
    (hv : vault.amount = e.amount)
    (hbR : rd.amount + e.amount ≤ u64Max)
    (hbI : idt.amount + e.amount ≤ u64Max) :
    resolve_by_arbiter e e.arbiter true vault rd idt true true
      = .ok ({ e with status := .Withdrawn }, { vault with amount := 0 },
             { rd with amount := rd.amount + e.amount }, idt) ∧
    resolve_by_arbiter e e.arbiter false vault rd idt true true
      = .ok ({ e with status := .Refunded }, { vault with amount := 0 },
             rd, { idt with amount := idt.amount + e.amount }) := by
  have hle : e.amount ≤ vault.amount := le_of_eq hv.symm
  constructor
  · have := hv
    simp [resolve_by_arbiter, splTransfer, hst, hle, hbR, hv]
  · simp [resolve_by_arbiter, splTransfer, hst, hle, hbI, hv]

/-- Witness for C8 at a concrete open escrow. -/
theorem C8_resolve_by_arbiter_witness :
    resolve_by_arbiter ⟨1, 2, 3, 50, 10, .Initialized, 255, 254⟩ 3 true
      ⟨9, 50⟩ ⟨2, 0⟩ ⟨1, 0⟩ true true
      = .ok (⟨1, 2, 3, 50, 10, .Withdrawn, 255, 254⟩, ⟨9, 0⟩, ⟨2, 50⟩, ⟨1, 0⟩) := by
  have := C8_resolve_by_arbiter ⟨1, 2, 3, 50, 10, .Initialized, 255, 254⟩
    ⟨9, 50⟩ ⟨2, 0⟩ ⟨1, 0⟩ (by decide) (by decide) (by decide) (by decide)
  simpa using this.1

/-- No `withdraw` outcome is `EscrowError::InvalidBump`. -/
theorem withdraw_ne_invalidBump (e : Escrow) (c : Nat) (now : Int)
    (vault dest : TokenAccount) (b1 b2 : Bool) :
    withdraw e c now vault dest b1 b2 ≠ .error (.program .InvalidBump) := by
  unfold withdraw
  split_ifs <;> try simp
  rcases hsp : splTransfer vault dest e.amount with - | ⟨a, b⟩ <;> simp [hsp]

/-- No `refund` outcome is `EscrowError::InvalidBump`. -/
theorem refund_ne_invalidBump (e : Escrow) (c : Nat) (now : Int)
    (vault dest : TokenAccount) (b1 b2 : Bool) :
    refund e c now vault dest b1 b2 ≠ .error (.program .InvalidBump) := by
  unfold refund
  split_ifs <;> try simp
  rcases hsp : splTransfer vault dest e.amount with - | ⟨a, b⟩ <;> simp [hsp]

/-- No `cancel` outcome is `EscrowError::InvalidBump`. -/
theorem cancel_ne_invalidBump (e : Escrow) (c : Nat) (now : Int)
    (vault dest : TokenAccount) (b1 b2 : Bool) :
    cancel e c now vault dest b1 b2 ≠ .error (.program .InvalidBump) := by
  unfold cancel
  split_ifs <;> try simp
  rcases hsp : splTransfer vault dest e.amount with - | ⟨a, b⟩ <;> simp [hsp]

/-- No `resolve_by_arbiter` outcome is `EscrowError::InvalidBump`. -/
theorem resolve_ne_invalidBump (e : Escrow) (c : Nat) (flag : Bool)
    (vault rd idt : TokenAccount) (b1 b2 : Bool) :
    resolve_by_arbiter e c flag vault rd idt b1 b2
      ≠ .error (.program .InvalidBump) := by
  unfold resolve_by_arbiter
  split_ifs <;> try simp
  · rcases hsp : splTransfer vault rd e.amount with - | ⟨a, b⟩ <;> simp [hsp]
  · rcases hsp : splTransfer vault idt e.amount with - | ⟨a, b⟩ <;> simp [hsp]

/-- No `initializeEscrow` outcome is `EscrowError::InvalidBump`. -/
theorem initializeEscrow_ne_invalidBump (amount : Nat) (timeout now : Int)
    (ik rk ak : Nat) (deposit : TokenAccount) (vk vb eb : Nat) :
    initializeEscrow amount timeout now ik rk ak deposit vk vb eb
      ≠ .error (.program .InvalidBump) := by
  unfold initializeEscrow
  split_ifs <;> try simp
  rcases hsp : splTransfer deposit ⟨vk, 0⟩ amount with - | ⟨a, b⟩ <;> simp [hsp]

/-- Counterexample to C9: a `cancel` call by the correct initializer on an
open escrow, with a derivation that does not reproduce the record location,
fails with the framework's seeds-constraint error, not with
`EscrowError::InvalidBump`. -/
theorem C9_counterexample :
    cancel ⟨1, 2, 3, 50, 10, .Initialized, 255, 254⟩ 1 0 ⟨9, 50⟩ ⟨1, 0⟩
        false true = .error .constraintSeeds ∧
    cancel ⟨1, 2, 3, 50, 10, .Initialized, 255, 254⟩ 1 0 ⟨9, 50⟩ ⟨1, 0⟩
        false true ≠ .error (.program .InvalidBump) := by
  decide

/-- C9 as amended: an operation invoked with a derivation that does not
reproduce the expected record or vault location fails, but with the
framework's seeds-constraint error; `EscrowError::InvalidBump` is declared
in the source yet raised by no operation, on any input. -/
theorem C9_amended_seeds_failure (e : Escrow) (now : Int)
    (vault destR destI : TokenAccount) (flag : Bool) (b1 b2 : Bool)
    (hbad : ¬ (b1 = true ∧ b2 = true)) :
    (withdraw e e.recipient now vault destR b1 b2 = .error .constraintSeeds ∧
     refund e e.initializer now vault destI b1 b2 = .error .constraintSeeds ∧
     cancel e e.initializer now vault destI b1 b2 = .error .constraintSeeds ∧
     resolve_by_arbiter e e.arbiter flag vault destR destI b1 b2
       = .error .constraintSeeds) ∧
    (∀ (c : Nat) (b1' b2' : Bool),
      withdraw e c now vault destR b1' b2' ≠ .error (.program .InvalidBump) ∧
      refund e c now vault destI b1' b2' ≠ .error (.program .InvalidBump) ∧
      cancel e c now vault destI b1' b2' ≠ .error (.program .InvalidBump) ∧
      resolve_by_arbiter e c flag vault destR destI b1' b2'
        ≠ .error (.program .InvalidBump)) := by
  constructor
  · cases b1 <;> cases b2
    · exact ⟨by simp [withdraw], by simp [refund], by simp [cancel],
        by simp [resolve_by_arbiter]⟩
    · exact ⟨by simp [withdraw], by simp [refund], by simp [cancel],
        by simp [resolve_by_arbiter]⟩
    · exact ⟨by simp [withdraw], by simp [refund], by simp [cancel],
        by simp [resolve_by_arbiter]⟩
    · exact absurd ⟨rfl, rfl⟩ hbad
  · intro c b1' b2'
    exact ⟨withdraw_ne_invalidBump e c now vault destR b1' b2',
      refund_ne_invalidBump e c now vault destI b1' b2',
      cancel_ne_invalidBump e c now vault destI b1' b2',
      resolve_ne_invalidBump e c flag vault destR destI b1' b2'⟩

/-- Witness for the amended C9 at a concrete bad derivation. -/
theorem C9_amended_seeds_failure_witness :
    withdraw ⟨1, 2, 3, 50, 10, .Initialized, 255, 254⟩ 2 0 ⟨9, 50⟩ ⟨2, 0⟩
      false true = .error .constraintSeeds := by
  have := C9_amended_seeds_failure ⟨1, 2, 3, 50, 10, .Initialized, 255, 254⟩
    0 ⟨9, 50⟩ ⟨2, 0⟩ ⟨1, 0⟩ true false true (by decide)
  exact this.1.1

/-- C10: the operation `initializeEscrow` places no lower bound on the timeout duration:
with the other preconditions met, any `timeoutDuration ≤ 0` (representable
as `i64` and with `now + timeoutDuration ≥ i64Min`) yields a record whose
deadline is at or before `now`, so that at the very same clock reading the
fresh record rejects `withdraw` with `TimeoutExpired` and `cancel` with
`CancelNotAllowed`, while `refund` by the initializer succeeds at once. -/
theorem C10_nonpositive_timeout (amount : Nat) (timeout now : Int)
    (ik rk ak vk vb eb : Nat) (deposit destR destI : TokenAccount)
    (hamt : 0 < amount) (hsz : amount ≤ u64Max)
    (hne : ik ≠ rk) (howner : deposit.owner = ik)
    (hbal : amount ≤ deposit.amount)
    (hlo : i64Min ≤ now + timeout) (hhi : now + timeout ≤ i64Max)
    (htmo : timeout ≤ 0)
    (hbI : destI.amount + amount ≤ u64Max) :
    ∃ (e : Escrow) (dep' vlt' : TokenAccount),
      initializeEscrow amount timeout now ik rk ak deposit vk vb eb
        = .ok (e, dep', vlt') ∧
      e.timeout ≤ now ∧
      withdraw e rk now vlt' destR true true
        = .error (.program .TimeoutExpired) ∧
      cancel e ik now vlt' destI true true
        = .error (.program .CancelNotAllowed) ∧
      refund e ik now vlt' destI true true
        = .ok ({ e with status := .Refunded }, { vlt' with amount := 0 },
               { destI with amount := destI.amount + amount }) := by
  refine ⟨⟨ik, rk, ak, amount, now + timeout, .Initialized, vb, eb⟩,
    { deposit with amount := deposit.amount - amount }, ⟨vk, amount⟩,
    initializeEscrow_ok_of amount timeout now ik rk ak vk vb eb deposit
      hamt hsz hne howner hbal hlo hhi, ?_, ?_, ?_, ?_⟩
  · show now + timeout ≤ now
    omega
  · have hexp : ¬ now < now + timeout := by omega
    simp [withdraw, hexp]
  · have hexp : ¬ now < now + timeout := by omega
    simp [cancel, hexp]
  · have hexp : now + timeout ≤ now := by omega
    simp [refund, splTransfer, hexp, hsz, hbI]

/-- Witness for C10 with timeout duration -5 at clock reading 100. -/
theorem C10_nonpositive_timeout_witness :
    ∃ (e : Escrow) (dep' vlt' : TokenAccount),
      initializeEscrow 50 (-5) 100 1 2 3 ⟨1, 50⟩ 9 255 254 = .ok (e, dep', vlt') ∧
      e.timeout ≤ 100 ∧
      withdraw e 2 100 vlt' ⟨2, 0⟩ true true = .error (.program .TimeoutExpired) ∧
      cancel e 1 100 vlt' ⟨1, 0⟩ true true = .error (.program .CancelNotAllowed) ∧
      refund e 1 100 vlt' ⟨1, 0⟩ true true
        = .ok ({ e with status := .Refunded }, { vlt' with amount := 0 },
               { (⟨1, 0⟩ : TokenAccount) with amount := 0 + 50 }) :=
  C10_nonpositive_timeout 50 (-5) 100 1 2 3 9 255 254 ⟨1, 50⟩ ⟨2, 0⟩ ⟨1, 0⟩
    (by decide) (by decide) (by decide) (by decide) (by decide)
    (by decide) (by decide) (by decide) (by decide)
